import Mathlib

/-!
# Verification of the WASAPI voice core (`src/wasapi/voice.rs`)

Shallow embedding of the `Voice` session type and its `Buffer` lease.
Device-side behaviour (the COM audio client and render client) is modelled
as a record of response functions; machine integers are natural numbers
with explicit `% 2^32` where 32-bit wraparound matters; Rust panics are an
explicit `fatal` outcome; acquisition and release of the two COM handles
are recorded as an event trace so that resource balance can be stated.
-/

namespace Wasapi

/-- `S_FALSE` HRESULT, returned by `IsFormatSupported` for an unsupported
format. -/
def S_FALSE : Int := 1

/-- The `AUDCLNT_E_DEVICE_INVALIDATED` HRESULT (`0x88890004` as a signed
32-bit value). -/
def AUDCLNT_E_DEVICE_INVALIDATED : Int := -2004287484

/-- `WAVE_FORMAT_PCM` format tag. -/
def WAVE_FORMAT_PCM : Nat := 1

/-- Modelled from the spec: `check_result` lives in the surrounding module,
not in this file of the repository; per the spec it is a thin translation
of a result code, failing exactly on failing (negative) HRESULTs and
carrying the raw code through. -/
def check_result (h : Int) : Except Int Unit :=
  if h < 0 then .error h else .ok ()

/-- Modelled from the spec: the outer crate's requested-format descriptor
(channel count, sample rate, and the sample representation reduced to its
byte width, the value of `data_type.get_sample_size()`). -/
structure Format where
  channels : Nat
  samples_rate : Nat
  sample_size : Nat
deriving DecidableEq, Repr

/-- The `WAVEFORMATEX` wire structure as filled in by `Voice::new`. -/
structure WAVEFORMATEX where
  wFormatTag : Nat
  nChannels : Nat
  nSamplesPerSec : Nat
  nAvgBytesPerSec : Nat
  nBlockAlign : Nat
  wBitsPerSample : Nat
  cbSize : Nat
deriving DecidableEq, Repr

/-- The candidate wire format built from the request (`format_attempt` in
`Voice::new`). -/
def format_attempt (f : Format) : WAVEFORMATEX :=
  { wFormatTag := WAVE_FORMAT_PCM
    nChannels := f.channels
    nSamplesPerSec := f.samples_rate
    nAvgBytesPerSec := f.channels * f.samples_rate * f.sample_size
    nBlockAlign := f.channels * f.sample_size
    wBitsPerSample := 8 * f.sample_size
    cbSize := 0 }

/-- The format `Initialize` is called with: the substitute returned through
`IsFormatSupported`'s out-pointer when it is non-null, the candidate
otherwise. -/
def resolved_format (fa : WAVEFORMATEX) (sub : Option WAVEFORMATEX) : WAVEFORMATEX :=
  match sub with
  | none => fa
  | some s => s

/-- Device-side responses consumed by `Voice::new`.  `build_audioclient`
is the endpoint call; the remaining fields are the audio-client methods,
each returning the HRESULT the device would produce (and, for
`is_format_supported`, the substitute-format out-pointer, `none` standing
for a null pointer; for `get_buffer_size`, the reported frame capacity). -/
structure Device where
  build_audioclient : Except Int Unit
  is_format_supported : WAVEFORMATEX → Int × Option WAVEFORMATEX
  initStream : WAVEFORMATEX → Int
  get_buffer_size : Int × Nat
  get_service : Int

/-- Resource and call events of construction and teardown. -/
inductive Event
  | acquireAudioClient
  | releaseAudioClient
  | acquireRenderClient
  | releaseRenderClient
  | initCalled (fmt : WAVEFORMATEX)
deriving DecidableEq, Repr

/-- The two classified construction errors of `CreationError`. -/
inductive CreationError
  | DeviceNotAvailable
  | FormatNotSupported
deriving DecidableEq, Repr

/-- The `Voice` struct: the two COM handles are tracked through the event
trace, the remaining fields are embedded directly. -/
structure Voice where
  max_frames_in_buffer : Nat
  num_channels : Nat
  bytes_per_frame : Nat
  samples_per_second : Nat
  bits_per_sample : Nat
  playing : Bool
deriving DecidableEq, Repr

/-- Outcome of `Voice::new`: success, a classified `CreationError`, or a
Rust panic (`fatal`) carrying the failing code. -/
inductive NewOutcome
  | ok (v : Voice)
  | err (e : CreationError)
  | fatal (code : Int)
deriving DecidableEq, Repr

/-- `Voice::new`, translated branch for branch from the source: the event
trace records handle acquisition/release and the `Initialize` call, and the
outcome is the returned value.  Note that the `S_FALSE` early return does
not release the audio client, exactly as in the source (the source carries
a `FIXME: release everything`). -/
def Voice.new (dev : Device) (f : Format) : List Event × NewOutcome :=
  match dev.build_audioclient with
  | .error e =>
      if e = AUDCLNT_E_DEVICE_INVALIDATED then ([], .err .DeviceNotAvailable)
      else ([], .fatal e)
  | .ok _ =>
      let fa := format_attempt f
      let res := dev.is_format_supported fa
      if res.1 = S_FALSE then
        ([.acquireAudioClient], .err .FormatNotSupported)
      else
        match check_result res.1 with
        | .error e =>
            if e = AUDCLNT_E_DEVICE_INVALIDATED then
              ([.acquireAudioClient, .releaseAudioClient], .err .DeviceNotAvailable)
            else
              ([.acquireAudioClient, .releaseAudioClient], .fatal e)
        | .ok _ =>
            let fmt := resolved_format fa res.2
            match check_result (dev.initStream fmt) with
            | .error e =>
                if e = AUDCLNT_E_DEVICE_INVALIDATED then
                  ([.acquireAudioClient, .initCalled fmt, .releaseAudioClient],
                   .err .DeviceNotAvailable)
                else
                  ([.acquireAudioClient, .initCalled fmt, .releaseAudioClient],
                   .fatal e)
            | .ok _ =>
                match check_result dev.get_buffer_size.1 with
                | .error e =>
                    if e = AUDCLNT_E_DEVICE_INVALIDATED then
                      ([.acquireAudioClient, .initCalled fmt, .releaseAudioClient],
                       .err .DeviceNotAvailable)
                    else
                      ([.acquireAudioClient, .initCalled fmt, .releaseAudioClient],
                       .fatal e)
                | .ok _ =>
                    match check_result dev.get_service with
                    | .error e =>
                        if e = AUDCLNT_E_DEVICE_INVALIDATED then
                          ([.acquireAudioClient, .initCalled fmt, .releaseAudioClient],
                           .err .DeviceNotAvailable)
                        else
                          ([.acquireAudioClient, .initCalled fmt, .releaseAudioClient],
                           .fatal e)
                    | .ok _ =>
                        ([.acquireAudioClient, .initCalled fmt, .acquireRenderClient],
                         .ok { max_frames_in_buffer := dev.get_buffer_size.2
                               num_channels := fmt.nChannels
                               bytes_per_frame := fmt.nBlockAlign
                               samples_per_second := fmt.nSamplesPerSec
                               bits_per_sample := fmt.wBitsPerSample
                               playing := false })

/-- `Voice::get_channels`. -/
def Voice.get_channels (v : Voice) : Nat := v.num_channels

/-- `Voice::get_samples_rate`. -/
def Voice.get_samples_rate (v : Voice) : Nat := v.samples_per_second

/-- Modelled sample-format result of `Voice::get_samples_format`: `I16` for
16-bit, `none` standing for the panic on any other width. -/
inductive SampleFormat
  | I16
deriving DecidableEq, Repr

/-- `Voice::get_samples_format`. -/
def Voice.get_samples_format (v : Voice) : Option SampleFormat :=
  if v.bits_per_sample = 16 then some .I16 else none

/-- The device transport calls made by `play`/`pause`. -/
inductive TransportCall
  | start
  | stop
deriving DecidableEq, Repr

/-- Outcome of a transport call: the updated `Voice`, or a panic from the
failed `check_result(...).unwrap()` carrying the state at the panic point
(the `playing` assignment has not executed yet). -/
inductive TransportOutcome
  | ok (v : Voice)
  | fatalAt (v : Voice) (code : Int)
deriving DecidableEq, Repr

/-- `Voice::play`: calls `Start` only when not already playing, unwraps its
result, then sets `playing` to `true`.  `hres` is the device's answer to
the `Start` call (consulted only if the call is made). -/
def Voice.play (v : Voice) (hres : Int) : List TransportCall × TransportOutcome :=
  if v.playing = false then
    match check_result hres with
    | .error e => ([.start], .fatalAt v e)
    | .ok _ => ([.start], .ok { v with playing := true })
  else
    ([], .ok { v with playing := true })

/-- `Voice::pause`: calls `Stop` only when currently playing, unwraps its
result, then sets `playing` to `false`. -/
def Voice.pause (v : Voice) (hres : Int) : List TransportCall × TransportOutcome :=
  if v.playing = true then
    match check_result hres with
    | .error e => ([.stop], .fatalAt v e)
    | .ok _ => ([.stop], .ok { v with playing := false })
  else
    ([], .ok { v with playing := false })

/-- `Drop for Voice`: releases the render client, then the audio client,
independently of every field of the state. -/
def Voice.drop (_v : Voice) : List Event :=
  [.releaseRenderClient, .releaseAudioClient]

/-- The `Buffer` lease as issued by `append_data`: claimed frame count and
the length of the typed sample slice. -/
structure WBuffer where
  buffer_len : Nat
  frames : Nat
deriving DecidableEq, Repr

/-- 32-bit truncation of a cast to `u32`. -/
def toU32 (n : Nat) : Nat := n % 2 ^ 32

/-- Wrapping 32-bit multiplication, the release-mode semantics of the
`u32` product in `append_data`. -/
def mul32 (a b : Nat) : Nat := toU32 a * toU32 b % 2 ^ 32

/-- Checked 32-bit subtraction: `none` is the underflow panic of
`self.max_frames_in_buffer - padding`. -/
def checkedSub (a b : Nat) : Option Nat :=
  if b ≤ a then some (a - b) else none

/-- The caller's requested maximum converted from sample elements to
frames, as `append_data` computes it:
`max_elements as u32 * size_of::<T>() as u32 / bytes_per_frame as u32`. -/
def requested_frames (v : Voice) (sizeT max_elements : Nat) : Nat :=
  mul32 max_elements sizeT / v.bytes_per_frame

/-- Result of the `append_data` acquisition loop: a lease issued at poll
index `i`, the `assert!(frames_available != 0)` panic, the subtraction
underflow panic, or exhaustion of the poll budget (the source loops
without bound). -/
inductive LeaseResult
  | lease (i : Nat) (b : WBuffer)
  | assertFailed
  | underflowPanic
  | fuelOut
deriving DecidableEq, Repr

/-- The `append_data` polling loop.  `padding j` is the device's
`GetCurrentPadding` answer at the `j`-th poll; `fuel` bounds the number of
polls so the loop is a total function.  Each iteration computes the free
capacity, sleeps and retries when it is zero, otherwise clamps it to the
requested maximum and issues the lease, with the source's assertion that
the clamped count is non-zero. -/
def append_data_aux (v : Voice) (sizeT max_elements : Nat) (padding : Nat → Nat) :
    Nat → Nat → LeaseResult
  | _, 0 => .fuelOut
  | i, fuel + 1 =>
      match checkedSub v.max_frames_in_buffer (padding i) with
      | none => .underflowPanic
      | some frames_available =>
          if frames_available = 0 then
            append_data_aux v sizeT max_elements padding (i + 1) fuel
          else
            let clamped := min frames_available (requested_frames v sizeT max_elements)
            if clamped = 0 then .assertFailed
            else .lease i { buffer_len := clamped * v.bytes_per_frame / sizeT
                            frames := clamped }

/-- `Voice::append_data`, entered at poll index `0`. -/
def Voice.append_data (v : Voice) (sizeT max_elements : Nat) (padding : Nat → Nat)
    (fuel : Nat) : LeaseResult :=
  append_data_aux v sizeT max_elements padding 0 fuel

/-- The `ReleaseBuffer(frames, flags)` call. -/
structure ReleaseCall where
  frames : Nat
  flags : Nat
deriving DecidableEq, Repr

/-- `Buffer::finish`: commits the claimed frame count with flags `0`. -/
def WBuffer.finish (b : WBuffer) : ReleaseCall :=
  { frames := b.frames, flags := 0 }

/-- Operations a caller can attempt on a lease: writing through
`get_buffer`, or finalizing with `finish`. -/
inductive LeaseOp
  | write
  | finishOp
deriving DecidableEq, Repr

/-- Lifecycle states of a lease.  `finish` takes the lease by value, so a
finalized lease no longer exists; `finalized` is terminal. -/
inductive LeaseState
  | claimed
  | finalized
deriving DecidableEq, Repr

/-- One step of the lease lifecycle: writes keep the lease claimed,
`finish` consumes it.  No operation is possible on a finalized lease —
this is the move-out of `fn finish(self)`. -/
def leaseStep : LeaseState → LeaseOp → Option LeaseState
  | .claimed, .write => some .claimed
  | .claimed, .finishOp => some .finalized
  | .finalized, _ => none

/-- Run a sequence of lease operations; `none` when some operation was
impossible (used a lease after it was consumed). -/
def runLease : LeaseState → List LeaseOp → Option LeaseState
  | s, [] => some s
  | s, op :: ops =>
      match leaseStep s op with
      | none => none
      | some s2 => runLease s2 ops

/-- The format `Initialize` ends up being called with, as determined by the
answer of `IsFormatSupported` to the candidate built from `f`. -/
def resolvedOf (dev : Device) (f : Format) : WAVEFORMATEX :=
  resolved_format (format_attempt f) (dev.is_format_supported (format_attempt f)).2

/-- A concrete 2-channel, 44100 Hz, 16-bit request. -/
def fmt2ch : Format := { channels := 2, samples_rate := 44100, sample_size := 2 }

/-- A device that accepts everything verbatim and reports a 441-frame
buffer. -/
def okDevice : Device :=
  { build_audioclient := .ok ()
    is_format_supported := fun _ => (0, none)
    initStream := fun _ => 0
    get_buffer_size := (0, 441)
    get_service := 0 }

/-- A concrete substitute format at 48000 Hz. -/
def subFormat : WAVEFORMATEX :=
  { wFormatTag := 1
    nChannels := 2
    nSamplesPerSec := 48000
    nAvgBytesPerSec := 192000
    nBlockAlign := 4
    wBitsPerSample := 16
    cbSize := 0 }

/-- A device that substitutes `subFormat` for any candidate. -/
def subDevice : Device :=
  { okDevice with is_format_supported := fun _ => (0, some subFormat) }

/-- A device whose `IsFormatSupported` answers `S_FALSE` (unsupported, no
substitute adopted). -/
def sfalseDevice : Device :=
  { okDevice with is_format_supported := fun _ => (S_FALSE, none) }

/-- The voice `okDevice` constructs from `fmt2ch`. -/
def vOk : Voice :=
  { max_frames_in_buffer := 441
    num_channels := 2
    bytes_per_frame := 4
    samples_per_second := 44100
    bits_per_sample := 16
    playing := false }

/-- `vOk`, playing. -/
def vPlaying : Voice := { vOk with playing := true }

/-- A small voice used to exercise the acquisition loop: 4-frame buffer,
4 bytes per frame. -/
def vEx : Voice :=
  { max_frames_in_buffer := 4
    num_channels := 2
    bytes_per_frame := 4
    samples_per_second := 44100
    bits_per_sample := 16
    playing := false }

/-- The voice `subDevice` constructs: all fields from `subFormat`. -/
def vSub : Voice :=
  { max_frames_in_buffer := 441
    num_channels := 2
    bytes_per_frame := 4
    samples_per_second := 48000
    bits_per_sample := 16
    playing := false }

/-- A padding sequence that reports a full buffer on the first poll and
two queued frames afterwards. -/
def padEx : Nat → Nat := fun j => if j = 0 then 4 else 2

/-- A padding sequence that always reports two queued frames. -/
def padOk : Nat → Nat := fun _ => 2

/-- A padding sequence that reports more queued frames than the buffer
holds. -/
def padBad : Nat → Nat := fun _ => 5

/-! ## Helper lemmas about `Voice.new` -/

theorem check_result_neg {h : Int} (hlt : h < 0) : check_result h = .error h := by
  simp [check_result, hlt]

theorem check_result_nonneg {h : Int} (hge : 0 ≤ h) : check_result h = .ok () := by
  simp [check_result, not_lt.mpr hge]

theorem Voice.new_build_error {dev : Device} {f : Format} {e : Int}
    (hb : dev.build_audioclient = .error e) :
    Voice.new dev f =
      if e = AUDCLNT_E_DEVICE_INVALIDATED then ([], .err .DeviceNotAvailable)
      else ([], .fatal e) := by
  unfold Voice.new
  rw [hb]

theorem Voice.new_format_sfalse {dev : Device} {f : Format}
    (hb : dev.build_audioclient = .ok ())
    (h1 : (dev.is_format_supported (format_attempt f)).1 = S_FALSE) :
    Voice.new dev f = ([.acquireAudioClient], .err .FormatNotSupported) := by
  unfold Voice.new
  rw [hb]
  simp [h1]

theorem Voice.new_format_error {dev : Device} {f : Format}
    (hb : dev.build_audioclient = .ok ())
    (h1 : (dev.is_format_supported (format_attempt f)).1 < 0) :
    Voice.new dev f =
      if (dev.is_format_supported (format_attempt f)).1 = AUDCLNT_E_DEVICE_INVALIDATED then
        ([.acquireAudioClient, .releaseAudioClient], .err .DeviceNotAvailable)
      else
        ([.acquireAudioClient, .releaseAudioClient],
         .fatal (dev.is_format_supported (format_attempt f)).1) := by
  have hne : (dev.is_format_supported (format_attempt f)).1 ≠ S_FALSE := by
    intro hc
    rw [hc] at h1
    exact absurd h1 (by decide)
  unfold Voice.new
  rw [hb]
  simp [hne, check_result_neg h1]

theorem Voice.new_init_error {dev : Device} {f : Format}
    (hb : dev.build_audioclient = .ok ())
    (h1ne : (dev.is_format_supported (format_attempt f)).1 ≠ S_FALSE)
    (h1ok : 0 ≤ (dev.is_format_supported (format_attempt f)).1)
    (h2 : dev.initStream (resolvedOf dev f) < 0) :
    Voice.new dev f =
      if dev.initStream (resolvedOf dev f) = AUDCLNT_E_DEVICE_INVALIDATED then
        ([.acquireAudioClient, .initCalled (resolvedOf dev f), .releaseAudioClient],
         .err .DeviceNotAvailable)
      else
        ([.acquireAudioClient, .initCalled (resolvedOf dev f), .releaseAudioClient],
         .fatal (dev.initStream (resolvedOf dev f))) := by
  unfold Voice.new
  rw [hb]
  rw [resolvedOf] at h2
  simp [h1ne, check_result_nonneg h1ok, resolvedOf, check_result_neg h2]

theorem Voice.new_bufsize_error {dev : Device} {f : Format}
    (hb : dev.build_audioclient = .ok ())
    (h1ne : (dev.is_format_supported (format_attempt f)).1 ≠ S_FALSE)
    (h1ok : 0 ≤ (dev.is_format_supported (format_attempt f)).1)
    (h2ok : 0 ≤ dev.initStream (resolvedOf dev f))
    (h3 : dev.get_buffer_size.1 < 0) :
    Voice.new dev f =
      if dev.get_buffer_size.1 = AUDCLNT_E_DEVICE_INVALIDATED then
        ([.acquireAudioClient, .initCalled (resolvedOf dev f), .releaseAudioClient],
         .err .DeviceNotAvailable)
      else
        ([.acquireAudioClient, .initCalled (resolvedOf dev f), .releaseAudioClient],
         .fatal dev.get_buffer_size.1) := by
  unfold Voice.new
  rw [hb]
  rw [resolvedOf] at h2ok
  simp [h1ne, check_result_nonneg h1ok, resolvedOf, check_result_nonneg h2ok,
        check_result_neg h3]

theorem Voice.new_service_error {dev : Device} {f : Format}
    (hb : dev.build_audioclient = .ok ())
    (h1ne : (dev.is_format_supported (format_attempt f)).1 ≠ S_FALSE)
    (h1ok : 0 ≤ (dev.is_format_supported (format_attempt f)).1)
    (h2ok : 0 ≤ dev.initStream (resolvedOf dev f))
    (h3ok : 0 ≤ dev.get_buffer_size.1)
    (h4 : dev.get_service < 0) :
    Voice.new dev f =
      if dev.get_service = AUDCLNT_E_DEVICE_INVALIDATED then
        ([.acquireAudioClient, .initCalled (resolvedOf dev f), .releaseAudioClient],
         .err .DeviceNotAvailable)
      else
        ([.acquireAudioClient, .initCalled (resolvedOf dev f), .releaseAudioClient],
         .fatal dev.get_service) := by
  unfold Voice.new
  rw [hb]
  rw [resolvedOf] at h2ok
  simp [h1ne, check_result_nonneg h1ok, resolvedOf, check_result_nonneg h2ok,
        check_result_nonneg h3ok, check_result_neg h4]

theorem Voice.new_success {dev : Device} {f : Format}
    (hb : dev.build_audioclient = .ok ())
    (h1ne : (dev.is_format_supported (format_attempt f)).1 ≠ S_FALSE)
    (h1ok : 0 ≤ (dev.is_format_supported (format_attempt f)).1)
    (h2ok : 0 ≤ dev.initStream (resolvedOf dev f))
    (h3ok : 0 ≤ dev.get_buffer_size.1)
    (h4ok : 0 ≤ dev.get_service) :
    Voice.new dev f =
      ([.acquireAudioClient, .initCalled (resolvedOf dev f), .acquireRenderClient],
       .ok { max_frames_in_buffer := dev.get_buffer_size.2
             num_channels := (resolvedOf dev f).nChannels
             bytes_per_frame := (resolvedOf dev f).nBlockAlign
             samples_per_second := (resolvedOf dev f).nSamplesPerSec
             bits_per_sample := (resolvedOf dev f).wBitsPerSample
             playing := false }) := by
  unfold Voice.new
  rw [hb]
  rw [resolvedOf] at h2ok
  simp [h1ne, check_result_nonneg h1ok, resolvedOf, check_result_nonneg h2ok,
        check_result_nonneg h3ok, check_result_nonneg h4ok]

theorem Voice.new_ok_inv {dev : Device} {f : Format} {tr : List Event} {w : Voice}
    (h : Voice.new dev f = (tr, .ok w)) :
    dev.build_audioclient = .ok () ∧
    (dev.is_format_supported (format_attempt f)).1 ≠ S_FALSE ∧
    0 ≤ (dev.is_format_supported (format_attempt f)).1 ∧
    0 ≤ dev.initStream (resolvedOf dev f) ∧
    0 ≤ dev.get_buffer_size.1 ∧
    0 ≤ dev.get_service ∧
    w = { max_frames_in_buffer := dev.get_buffer_size.2
          num_channels := (resolvedOf dev f).nChannels
          bytes_per_frame := (resolvedOf dev f).nBlockAlign
          samples_per_second := (resolvedOf dev f).nSamplesPerSec
          bits_per_sample := (resolvedOf dev f).wBitsPerSample
          playing := false } ∧
    tr = [.acquireAudioClient, .initCalled (resolvedOf dev f), .acquireRenderClient] := by
  cases hbe : dev.build_audioclient with
  | error e =>
      rw [Voice.new_build_error hbe] at h
      split at h <;> simp at h
  | ok u =>
      cases u
      by_cases hs : (dev.is_format_supported (format_attempt f)).1 = S_FALSE
      · rw [Voice.new_format_sfalse hbe hs] at h
        simp at h
      · by_cases h1lt : (dev.is_format_supported (format_attempt f)).1 < 0
        · rw [Voice.new_format_error hbe h1lt] at h
          split at h <;> simp at h
        · have h1ok := not_lt.mp h1lt
          by_cases h2lt : dev.initStream (resolvedOf dev f) < 0
          · rw [Voice.new_init_error hbe hs h1ok h2lt] at h
            split at h <;> simp at h
          · have h2ok := not_lt.mp h2lt
            by_cases h3lt : dev.get_buffer_size.1 < 0
            · rw [Voice.new_bufsize_error hbe hs h1ok h2ok h3lt] at h
              split at h <;> simp at h
            · have h3ok := not_lt.mp h3lt
              by_cases h4lt : dev.get_service < 0
              · rw [Voice.new_service_error hbe hs h1ok h2ok h3ok h4lt] at h
                split at h <;> simp at h
              · have h4ok := not_lt.mp h4lt
                rw [Voice.new_success hbe hs h1ok h2ok h3ok h4ok] at h
                injection h with htr hout
                injection hout with hw
                exact ⟨rfl, hs, h1ok, h2ok, h3ok, h4ok, hw.symm, htr.symm⟩

theorem Voice.play_calls_start {v : Voice} (hv : v.playing = false) (hres : Int) :
    (Voice.play v hres).1 = [TransportCall.start] := by
  unfold Voice.play
  rw [hv]
  cases check_result hres <;> simp

/-! ## Claims -/

/-- C6: `play()` on an already-playing session and `pause()` on an
already-paused session perform no device call and leave the state
unchanged; when a transition does occur, the `playing` flag is set only
after the device `Start`/`Stop` call succeeds (on a failing call the state
at the panic point still carries the old flag). -/
theorem play_pause_idempotent (v : Voice) (hres : Int) :
    (v.playing = true → Voice.play v hres = ([], .ok v)) ∧
    (v.playing = false → Voice.pause v hres = ([], .ok v)) ∧
    (v.playing = false → hres < 0 →
        Voice.play v hres = ([.start], .fatalAt v hres)) ∧
    (v.playing = false → 0 ≤ hres →
        Voice.play v hres = ([.start], .ok { v with playing := true })) ∧
    (v.playing = true → hres < 0 →
        Voice.pause v hres = ([.stop], .fatalAt v hres)) ∧
    (v.playing = true → 0 ≤ hres →
        Voice.pause v hres = ([.stop], .ok { v with playing := false })) := by
  obtain ⟨mx, nc, bf, sp, bs, p⟩ := v
  refine ⟨?_, ?_, ?_, ?_, ?_, ?_⟩
  · intro hp
    simp only at hp
    subst hp
    simp [Voice.play]
  · intro hp
    simp only at hp
    subst hp
    simp [Voice.pause]
  · intro hp hneg
    simp only at hp
    subst hp
    simp [Voice.play, check_result_neg hneg]
  · intro hp hok
    simp only at hp
    subst hp
    simp [Voice.play, check_result_nonneg hok]
  · intro hp hneg
    simp only at hp
    subst hp
    simp [Voice.pause, check_result_neg hneg]
  · intro hp hok
    simp only at hp
    subst hp
    simp [Voice.pause, check_result_nonneg hok]

/-- Witness for C6 at concrete states: an already-playing session absorbs
`play`, a paused one absorbs `pause`, a real transition calls the device,
and a failing `Stop` leaves the old flag in place. -/
theorem play_pause_idempotent_witness :
    Voice.play vPlaying 0 = ([], .ok vPlaying) ∧
    Voice.pause vOk 0 = ([], .ok vOk) ∧
    Voice.play vOk 0 = ([.start], .ok vPlaying) ∧
    Voice.pause vPlaying (-1) = ([.stop], .fatalAt vPlaying (-1)) :=
  ⟨(play_pause_idempotent vPlaying 0).1 rfl,
   (play_pause_idempotent vOk 0).2.1 rfl,
   (play_pause_idempotent vOk 0).2.2.2.1 rfl (by decide),
   (play_pause_idempotent vPlaying (-1)).2.2.2.2.1 rfl (by decide)⟩

/-- C7: teardown emits exactly one release of the render client followed by
exactly one release of the audio client, for every state of the `playing`
flag, which is the reverse of the acquisition order recorded in every
successful construction trace. -/
theorem teardown_reverse_order (v : Voice) :
    Voice.drop v = [Event.releaseRenderClient, Event.releaseAudioClient] ∧
    (Voice.drop v).count Event.releaseRenderClient = 1 ∧
    (Voice.drop v).count Event.releaseAudioClient = 1 ∧
    (∀ b, Voice.drop { v with playing := b } = Voice.drop v) ∧
    (∀ dev f tr w, Voice.new dev f = (tr, NewOutcome.ok w) →
        tr = [Event.acquireAudioClient, Event.initCalled (resolvedOf dev f),
              Event.acquireRenderClient] ∧
        Voice.drop w = [Event.releaseRenderClient, Event.releaseAudioClient]) := by
  refine ⟨rfl, rfl, rfl, fun b => rfl, ?_⟩
  intro dev f tr w h
  obtain ⟨-, -, -, -, -, -, -, htr⟩ := Voice.new_ok_inv h
  exact ⟨htr, rfl⟩

/-- Witness for C7: the success trace of the all-accepting device acquires
audio client then render client, and teardown of the resulting session
releases them in reverse. -/
theorem teardown_reverse_order_witness :
    Voice.drop vOk = [Event.releaseRenderClient, Event.releaseAudioClient] :=
  ((teardown_reverse_order vOk).2.2.2.2 okDevice fmt2ch
    [Event.acquireAudioClient, Event.initCalled (resolvedOf okDevice fmt2ch),
     Event.acquireRenderClient] vOk (by decide)).2

theorem runLease_finalized_nil {ops : List LeaseOp} {s : LeaseState}
    (h : runLease .finalized ops = some s) : ops = [] := by
  cases ops with
  | nil => rfl
  | cons op ops =>
      cases op <;> simp [runLease, leaseStep] at h

theorem runLease_claimed_count {ops : List LeaseOp} {s : LeaseState}
    (h : runLease .claimed ops = some s) : ops.count LeaseOp.finishOp ≤ 1 := by
  induction ops with
  | nil => simp
  | cons op ops ih =>
      cases op with
      | write =>
          simp only [runLease, leaseStep] at h
          simpa using ih h
      | finishOp =>
          simp only [runLease, leaseStep] at h
          rw [runLease_finalized_nil h]
          simp

/-- C8: `finish` commits exactly the claimed frame count with zero flags,
and because it consumes the lease (the lifecycle has no step out of
`finalized`) no legal operation sequence finalizes a lease twice. -/
theorem finish_commits_claimed_frames_once (b : WBuffer) (ops ops2 : List LeaseOp)
    (s : LeaseState) :
    WBuffer.finish b = { frames := b.frames, flags := 0 } ∧
    (runLease LeaseState.claimed ops = some s → ops.count LeaseOp.finishOp ≤ 1) ∧
    runLease LeaseState.finalized (LeaseOp.finishOp :: ops2) = none := by
  refine ⟨rfl, fun h => runLease_claimed_count h, rfl⟩

/-- Witness for C8: a write followed by one finalize is a legal sequence
with one `finish`, a four-frame lease commits `(4, 0)`, and a finalize
after the finalize is impossible. -/
theorem finish_commits_claimed_frames_once_witness :
    WBuffer.finish { buffer_len := 8, frames := 4 } = { frames := 4, flags := 0 } ∧
    ([LeaseOp.write, LeaseOp.finishOp].count LeaseOp.finishOp ≤ 1) ∧
    runLease LeaseState.finalized [LeaseOp.finishOp] = none :=
  ⟨(finish_commits_claimed_frames_once ⟨8, 4⟩ [.write, .finishOp] [] .finalized).1,
   (finish_commits_claimed_frames_once ⟨8, 4⟩ [.write, .finishOp] [] .finalized).2.1
     (by decide),
   (finish_commits_claimed_frames_once ⟨8, 4⟩ [.write, .finishOp] [] .finalized).2.2⟩

/-- C10: every successfully constructed session has `playing = false`, so
the first `play` after construction performs the device `Start` call
whatever the device then answers. -/
theorem constructed_session_not_playing (dev : Device) (f : Format) (tr : List Event)
    (v : Voice) (h : Voice.new dev f = (tr, NewOutcome.ok v)) :
    v.playing = false ∧ ∀ hres : Int, (Voice.play v hres).1 = [TransportCall.start] := by
  obtain ⟨-, -, -, -, -, -, hw, -⟩ := Voice.new_ok_inv h
  subst hw
  exact ⟨rfl, fun hres => Voice.play_calls_start rfl hres⟩

/-- Witness for C10: the session built by the all-accepting device is not
playing, and its first `play` emits `Start`. -/
theorem constructed_session_not_playing_witness :
    vOk.playing = false ∧ (Voice.play vOk 0).1 = [TransportCall.start] :=
  ⟨(constructed_session_not_playing okDevice fmt2ch
      [Event.acquireAudioClient, Event.initCalled (resolvedOf okDevice fmt2ch),
       Event.acquireRenderClient] vOk (by decide)).1,
   (constructed_session_not_playing okDevice fmt2ch
      [Event.acquireAudioClient, Event.initCalled (resolvedOf okDevice fmt2ch),
       Event.acquireRenderClient] vOk (by decide)).2 0⟩

theorem checkedSub_some {a b n : Nat} (h : checkedSub a b = some n) :
    b ≤ a ∧ n = a - b := by
  unfold checkedSub at h
  split at h
  · injection h with h2
    exact ⟨by assumption, h2.symm⟩
  · cases h

/-- C1 (code defect): against a device whose `IsFormatSupported` answers
`S_FALSE`, construction returns `FormatNotSupported` with the audio client
still acquired — the `S_FALSE` early return skips the `Release` that every
other post-acquisition failure path performs (the source marks the gap
with `FIXME: release everything`). -/
theorem formatNotSupported_leaks_audio_client :
    Voice.new sfalseDevice fmt2ch =
      ([Event.acquireAudioClient], NewOutcome.err CreationError.FormatNotSupported) ∧
    (Voice.new sfalseDevice fmt2ch).1.count Event.acquireAudioClient = 1 ∧
    (Voice.new sfalseDevice fmt2ch).1.count Event.releaseAudioClient = 0 :=
  ⟨by decide, by decide, by decide⟩

/-- C2 (counterexample): with a requested maximum of zero sample elements
the clamp is zero at the first poll with free capacity, and the
`assert!(frames_available != 0)` after the clamp fires. -/
theorem append_data_assert_fires :
    Voice.append_data vEx 2 0 (fun _ => 0) 3 = LeaseResult.assertFailed := by
  decide

/-- C2 (amended): whenever the caller's requested maximum converts to at
least one frame (`bytes_per_frame ≤ max_elements * size_of T` under the
32-bit conversion), the acquisition loop never hits the assertion, and
every issued lease has a strictly positive frame count bounded by both the
free capacity at the claiming poll and the requested maximum in frames. -/
theorem append_data_lease_bounds (v : Voice) (sizeT max_elements : Nat)
    (padding : Nat → Nat) (i0 fuel : Nat)
    (hbpf : 0 < v.bytes_per_frame)
    (hreq : v.bytes_per_frame ≤ mul32 max_elements sizeT) :
    append_data_aux v sizeT max_elements padding i0 fuel ≠ LeaseResult.assertFailed ∧
    ∀ i b, append_data_aux v sizeT max_elements padding i0 fuel = LeaseResult.lease i b →
      0 < b.frames ∧ b.frames ≤ v.max_frames_in_buffer - padding i ∧
      b.frames ≤ requested_frames v sizeT max_elements := by
  have hreqpos : 0 < requested_frames v sizeT max_elements :=
    (Nat.one_le_div_iff hbpf).mpr hreq
  induction fuel generalizing i0 with
  | zero =>
      refine ⟨by simp [append_data_aux], ?_⟩
      intro i b h
      simp [append_data_aux] at h
  | succ n ih =>
      cases hcs : checkedSub v.max_frames_in_buffer (padding i0) with
      | none =>
          refine ⟨by simp [append_data_aux, hcs], ?_⟩
          intro i b h
          simp [append_data_aux, hcs] at h
      | some fa =>
          by_cases hfa : fa = 0
          · subst hfa
            have hstep : append_data_aux v sizeT max_elements padding i0 (n + 1) =
                append_data_aux v sizeT max_elements padding (i0 + 1) n := by
              simp [append_data_aux, hcs]
            refine ⟨by rw [hstep]; exact (ih (i0 + 1)).1, ?_⟩
            intro i b h
            rw [hstep] at h
            exact (ih (i0 + 1)).2 i b h
          · have hfapos : 0 < fa := Nat.pos_of_ne_zero hfa
            have hclamp : min fa (requested_frames v sizeT max_elements) ≠ 0 :=
              (lt_min hfapos hreqpos).ne'
            have heq : append_data_aux v sizeT max_elements padding i0 (n + 1) =
                LeaseResult.lease i0
                  { buffer_len :=
                      min fa (requested_frames v sizeT max_elements) *
                        v.bytes_per_frame / sizeT
                    frames := min fa (requested_frames v sizeT max_elements) } := by
              simp [append_data_aux, hcs, hfa, hclamp]
            refine ⟨by rw [heq]; simp, ?_⟩
            intro i b h
            rw [heq] at h
            injection h with hi hb
            subst hi
            subst hb
            obtain ⟨hpd, hfaeq⟩ := checkedSub_some hcs
            refine ⟨lt_min hfapos hreqpos, ?_, min_le_right _ _⟩
            rw [← hfaeq]
            exact min_le_left fa (requested_frames v sizeT max_elements)

/-- Witness for the amended C2: an eight-element, two-byte-per-element
request on a four-byte-per-frame voice converts to four frames, the loop
never asserts, and the issued lease claims two frames, within both
bounds. -/
theorem append_data_lease_bounds_witness :
    append_data_aux vEx 2 8 padOk 0 3 ≠ LeaseResult.assertFailed ∧
    (0 : Nat) < (⟨4, 2⟩ : WBuffer).frames ∧
    (⟨4, 2⟩ : WBuffer).frames ≤ vEx.max_frames_in_buffer - padOk 0 ∧
    (⟨4, 2⟩ : WBuffer).frames ≤ requested_frames vEx 2 8 :=
  ⟨(append_data_lease_bounds vEx 2 8 padOk 0 3 (by decide) (by decide)).1,
   (append_data_lease_bounds vEx 2 8 padOk 0 3 (by decide) (by decide)).2 0 ⟨4, 2⟩
     (by decide)⟩

/-- C5: a lease is only issued at a poll whose free capacity is strictly
positive; every earlier poll of the loop saw a full buffer (zero free
capacity) and was retried after the sleep, never claiming frames; and the
issued lease is sized to the minimum of the free capacity at that poll and
the requested maximum. -/
theorem append_data_waits_for_capacity (v : Voice) (sizeT max_elements : Nat)
    (padding : Nat → Nat) (i0 fuel i : Nat) (b : WBuffer)
    (h : append_data_aux v sizeT max_elements padding i0 fuel = LeaseResult.lease i b) :
    i0 ≤ i ∧
    padding i < v.max_frames_in_buffer ∧
    (∀ j, i0 ≤ j → j < i → padding j = v.max_frames_in_buffer) ∧
    b.frames = min (v.max_frames_in_buffer - padding i)
                   (requested_frames v sizeT max_elements) := by
  induction fuel generalizing i0 with
  | zero => simp [append_data_aux] at h
  | succ n ih =>
      cases hcs : checkedSub v.max_frames_in_buffer (padding i0) with
      | none => simp [append_data_aux, hcs] at h
      | some fa =>
          obtain ⟨hpd, hfaeq⟩ := checkedSub_some hcs
          by_cases hfa : fa = 0
          · subst hfa
            have hstep : append_data_aux v sizeT max_elements padding i0 (n + 1) =
                append_data_aux v sizeT max_elements padding (i0 + 1) n := by
              simp [append_data_aux, hcs]
            rw [hstep] at h
            obtain ⟨hi, hcap, hz, hf⟩ := ih (i0 + 1) h
            refine ⟨le_trans (Nat.le_succ i0) hi, hcap, ?_, hf⟩
            intro j hj1 hj2
            rcases Nat.eq_or_lt_of_le hj1 with hj | hj
            · subst hj
              exact Nat.le_antisymm hpd (Nat.le_of_sub_eq_zero hfaeq.symm)
            · exact hz j hj hj2
          · by_cases hclamp : min fa (requested_frames v sizeT max_elements) = 0
            · have : append_data_aux v sizeT max_elements padding i0 (n + 1) =
                  LeaseResult.assertFailed := by
                simp [append_data_aux, hcs, hfa, hclamp]
              rw [this] at h
              cases h
            · have heq : append_data_aux v sizeT max_elements padding i0 (n + 1) =
                  LeaseResult.lease i0
                    { buffer_len :=
                        min fa (requested_frames v sizeT max_elements) *
                          v.bytes_per_frame / sizeT
                      frames := min fa (requested_frames v sizeT max_elements) } := by
                simp [append_data_aux, hcs, hfa, hclamp]
              rw [heq] at h
              injection h with hi hb
              subst hi
              subst hb
              refine ⟨le_refl i0, ?_, ?_, by rw [hfaeq]⟩
              · have hne : v.max_frames_in_buffer - padding i0 ≠ 0 := by
                  rw [← hfaeq]; exact hfa
                omega
              · intro j hj1 hj2
                exact absurd (lt_of_le_of_lt hj1 hj2) (lt_irrefl i0)

/-- Witness for C5: with `padEx` the first poll reports a full buffer, the
loop retries, and the lease is issued at the second poll, sized to the two
newly free frames. -/
theorem append_data_waits_for_capacity_witness :
    (0 : Nat) ≤ 1 ∧
    padEx 1 < vEx.max_frames_in_buffer ∧
    (∀ j, 0 ≤ j → j < 1 → padEx j = vEx.max_frames_in_buffer) ∧
    (⟨4, 2⟩ : WBuffer).frames =
      min (vEx.max_frames_in_buffer - padEx 1) (requested_frames vEx 2 8) :=
  append_data_waits_for_capacity vEx 2 8 padEx 0 3 1 ⟨4, 2⟩ (by decide)

theorem append_data_no_underflow (v : Voice) (sizeT max_elements : Nat)
    (padding : Nat → Nat)
    (hpad : ∀ j, padding j ≤ v.max_frames_in_buffer) :
    ∀ i0 fuel,
      append_data_aux v sizeT max_elements padding i0 fuel ≠ LeaseResult.underflowPanic := by
  intro i0 fuel
  induction fuel generalizing i0 with
  | zero => simp [append_data_aux]
  | succ n ih =>
      have hcs : checkedSub v.max_frames_in_buffer (padding i0) =
          some (v.max_frames_in_buffer - padding i0) := by
        unfold checkedSub
        rw [if_pos (hpad i0)]
      by_cases hfa : v.max_frames_in_buffer - padding i0 = 0
      · have hstep : append_data_aux v sizeT max_elements padding i0 (n + 1) =
            append_data_aux v sizeT max_elements padding (i0 + 1) n := by
          simp [append_data_aux, hcs, hfa]
        rw [hstep]
        exact ih (i0 + 1)
      · by_cases hclamp :
            min (v.max_frames_in_buffer - padding i0)
              (requested_frames v sizeT max_elements) = 0
        · simp [append_data_aux, hcs, hfa, hclamp]
        · simp [append_data_aux, hcs, hfa, hclamp]

/-- C9: the `u32` free-capacity subtraction is well-defined exactly when
the reported padding does not exceed `max_frames_in_buffer`; under that
device-side precondition the acquisition loop never underflows, and at a
poll that violates it the subtraction underflows immediately. -/
theorem free_capacity_needs_padding_bound (a b : Nat) (v : Voice)
    (sizeT max_elements : Nat) (padding : Nat → Nat) (i0 fuel : Nat) :
    ((checkedSub a b).isSome ↔ b ≤ a) ∧
    (∀ n, checkedSub a b = some n → n = a - b) ∧
    ((∀ j, padding j ≤ v.max_frames_in_buffer) →
        append_data_aux v sizeT max_elements padding i0 fuel ≠
          LeaseResult.underflowPanic) ∧
    (v.max_frames_in_buffer < padding i0 → 0 < fuel →
        append_data_aux v sizeT max_elements padding i0 fuel =
          LeaseResult.underflowPanic) := by
  refine ⟨?_, fun n h => (checkedSub_some h).2, ?_, ?_⟩
  · unfold checkedSub
    split <;> simp_all
  · intro hpad
    exact append_data_no_underflow v sizeT max_elements padding hpad i0 fuel
  · intro hlt hf
    have hcs : checkedSub v.max_frames_in_buffer (padding i0) = none := by
      unfold checkedSub
      rw [if_neg (not_le.mpr hlt)]
    cases fuel with
    | zero => exact absurd hf (lt_irrefl 0)
    | succ n => simp [append_data_aux, hcs]

/-- Witness for C9: `4 - 2` is defined, the bounded padding `padOk` never
underflows, and `padBad` (five queued frames in a four-frame buffer)
underflows at the first poll. -/
theorem free_capacity_needs_padding_bound_witness :
    ((checkedSub 4 2).isSome ↔ 2 ≤ 4) ∧
    (append_data_aux vEx 2 8 padOk 0 3 ≠ LeaseResult.underflowPanic) ∧
    append_data_aux vEx 2 8 padBad 0 3 = LeaseResult.underflowPanic :=
  ⟨(free_capacity_needs_padding_bound 4 2 vEx 2 8 padOk 0 3).1,
   (free_capacity_needs_padding_bound 4 2 vEx 2 8 padOk 0 3).2.2.1
     (fun _ => by norm_num [padOk, vEx]),
   (free_capacity_needs_padding_bound 4 2 vEx 2 8 padBad 0 3).2.2.2
     (by decide) (by decide)⟩

/-- C3: when `IsFormatSupported` answers with a substitute format,
construction adopts it: `Initialize` is called with the substitute, and
the session's recorded fields and accessors (channel count, sample rate,
bytes per frame, bits per sample) come from the substitute, not from the
caller's request. -/
theorem substituted_format_adopted (dev : Device) (f : Format) (sub : WAVEFORMATEX)
    (h1 : Int)
    (hb : dev.build_audioclient = .ok ())
    (hsub : dev.is_format_supported (format_attempt f) = (h1, some sub))
    (h1ne : h1 ≠ S_FALSE) (h1ok : 0 ≤ h1)
    (h2ok : 0 ≤ dev.initStream sub)
    (h3ok : 0 ≤ dev.get_buffer_size.1)
    (h4ok : 0 ≤ dev.get_service) :
    Voice.new dev f =
      ([.acquireAudioClient, .initCalled sub, .acquireRenderClient],
       .ok { max_frames_in_buffer := dev.get_buffer_size.2
             num_channels := sub.nChannels
             bytes_per_frame := sub.nBlockAlign
             samples_per_second := sub.nSamplesPerSec
             bits_per_sample := sub.wBitsPerSample
             playing := false }) ∧
    ∀ v, (Voice.new dev f).2 = .ok v →
      v.get_channels = sub.nChannels ∧
      v.get_samples_rate = sub.nSamplesPerSec ∧
      v.bytes_per_frame = sub.nBlockAlign ∧
      v.bits_per_sample = sub.wBitsPerSample := by
  have hres : resolvedOf dev f = sub := by
    rw [resolvedOf, hsub]
    rfl
  have h1e : (dev.is_format_supported (format_attempt f)).1 = h1 := by
    rw [hsub]
  have hmain := Voice.new_success hb (by rw [h1e]; exact h1ne) (by rw [h1e]; exact h1ok)
      (by rw [hres]; exact h2ok) h3ok h4ok
  rw [hres] at hmain
  refine ⟨hmain, ?_⟩
  intro v hv
  rw [hmain] at hv
  injection hv with hv2
  subst hv2
  exact ⟨rfl, rfl, rfl, rfl⟩

/-- Witness for C3: `subDevice` substitutes the 48000 Hz `subFormat` for
the 44100 Hz request; the session is initialized with and reports the
substitute. -/
theorem substituted_format_adopted_witness :
    Voice.new subDevice fmt2ch =
      ([Event.acquireAudioClient, Event.initCalled subFormat, Event.acquireRenderClient],
       NewOutcome.ok vSub) ∧
    vSub.get_channels = 2 ∧ vSub.get_samples_rate = 48000 := by
  have h := substituted_format_adopted subDevice fmt2ch subFormat 0 rfl rfl
      (by decide) (by decide) (by decide) (by decide) (by decide)
  obtain ⟨hc, hr, -, -⟩ := h.2 vSub (by rw [h.1]; rfl)
  exact ⟨h.1, hc, hr⟩

/-- C4: every device result code is classified three ways at every step of
construction: a build failure, and any failing code from
`IsFormatSupported`, `Initialize`, `GetBufferSize` or `GetService`, yields
`DeviceNotAvailable` when it is the device-invalidated code and a fatal
panic otherwise; the `S_FALSE` answer of `IsFormatSupported` yields
`FormatNotSupported`; and construction succeeds only when every consulted
code succeeded. -/
theorem result_code_classification (dev : Device) (f : Format) :
    (∀ e, dev.build_audioclient = .error e →
        (Voice.new dev f).2 =
          if e = AUDCLNT_E_DEVICE_INVALIDATED then NewOutcome.err .DeviceNotAvailable
          else NewOutcome.fatal e) ∧
    (dev.build_audioclient = .ok () →
        (dev.is_format_supported (format_attempt f)).1 = S_FALSE →
        (Voice.new dev f).2 = NewOutcome.err .FormatNotSupported) ∧
    (dev.build_audioclient = .ok () →
        (dev.is_format_supported (format_attempt f)).1 < 0 →
        (Voice.new dev f).2 =
          if (dev.is_format_supported (format_attempt f)).1 =
              AUDCLNT_E_DEVICE_INVALIDATED then
            NewOutcome.err .DeviceNotAvailable
          else NewOutcome.fatal (dev.is_format_supported (format_attempt f)).1) ∧
    (dev.build_audioclient = .ok () →
        (dev.is_format_supported (format_attempt f)).1 ≠ S_FALSE →
        0 ≤ (dev.is_format_supported (format_attempt f)).1 →
        dev.initStream (resolvedOf dev f) < 0 →
        (Voice.new dev f).2 =
          if dev.initStream (resolvedOf dev f) = AUDCLNT_E_DEVICE_INVALIDATED then
            NewOutcome.err .DeviceNotAvailable
          else NewOutcome.fatal (dev.initStream (resolvedOf dev f))) ∧
    (dev.build_audioclient = .ok () →
        (dev.is_format_supported (format_attempt f)).1 ≠ S_FALSE →
        0 ≤ (dev.is_format_supported (format_attempt f)).1 →
        0 ≤ dev.initStream (resolvedOf dev f) →
        dev.get_buffer_size.1 < 0 →
        (Voice.new dev f).2 =
          if dev.get_buffer_size.1 = AUDCLNT_E_DEVICE_INVALIDATED then
            NewOutcome.err .DeviceNotAvailable
          else NewOutcome.fatal dev.get_buffer_size.1) ∧
    (dev.build_audioclient = .ok () →
        (dev.is_format_supported (format_attempt f)).1 ≠ S_FALSE →
        0 ≤ (dev.is_format_supported (format_attempt f)).1 →
        0 ≤ dev.initStream (resolvedOf dev f) →
        0 ≤ dev.get_buffer_size.1 →
        dev.get_service < 0 →
        (Voice.new dev f).2 =
          if dev.get_service = AUDCLNT_E_DEVICE_INVALIDATED then
            NewOutcome.err .DeviceNotAvailable
          else NewOutcome.fatal dev.get_service) ∧
    (∀ tr v, Voice.new dev f = (tr, NewOutcome.ok v) →
        dev.build_audioclient = .ok () ∧
        0 ≤ (dev.is_format_supported (format_attempt f)).1 ∧
        (dev.is_format_supported (format_attempt f)).1 ≠ S_FALSE ∧
        0 ≤ dev.initStream (resolvedOf dev f) ∧
        0 ≤ dev.get_buffer_size.1 ∧
        0 ≤ dev.get_service) := by
  refine ⟨?_, ?_, ?_, ?_, ?_, ?_, ?_⟩
  · intro e hb
    rw [Voice.new_build_error hb]
    split <;> rfl
  · intro hb hs
    rw [Voice.new_format_sfalse hb hs]
  · intro hb h1
    rw [Voice.new_format_error hb h1]
    split <;> rfl
  · intro hb hs h1ok h2
    rw [Voice.new_init_error hb hs h1ok h2]
    split <;> rfl
  · intro hb hs h1ok h2ok h3
    rw [Voice.new_bufsize_error hb hs h1ok h2ok h3]
    split <;> rfl
  · intro hb hs h1ok h2ok h3ok h4
    rw [Voice.new_service_error hb hs h1ok h2ok h3ok h4]
    split <;> rfl
  · intro tr v h
    obtain ⟨hb, hs, h1ok, h2ok, h3ok, h4ok, -, -⟩ := Voice.new_ok_inv h
    exact ⟨hb, h1ok, hs, h2ok, h3ok, h4ok⟩

/-- Witness for C4 at concrete devices: the `S_FALSE` device is classified
`FormatNotSupported`, and the all-accepting device succeeds with every
consulted code succeeding. -/
theorem result_code_classification_witness :
    (Voice.new sfalseDevice fmt2ch).2 = NewOutcome.err CreationError.FormatNotSupported ∧
    (0 : Int) ≤ okDevice.get_service :=
  ⟨(result_code_classification sfalseDevice fmt2ch).2.1 rfl rfl,
   ((result_code_classification okDevice fmt2ch).2.2.2.2.2.2
      [Event.acquireAudioClient, Event.initCalled (resolvedOf okDevice fmt2ch),
       Event.acquireRenderClient] vOk (by decide)).2.2.2.2.2⟩

end Wasapi
